import Mathlib

/-!
Verification of the agenda scheduling/CRM backend core: a shallow embedding
of the appointment conflict detection, role-based user management, token
verification and revocation, share-link consumption and prospect scoping
logic, together with theorems settling the specification claims.

Conventions of the embedding:
* Instants (`dateTime`, `expires_at`, `iat`, ...) are minutes encoded as `Int`.
* MongoDB collections are Lean lists of structure values; `find_one` is
  `List.find?` / `List.any`, `update_one` / `update_many` are `List.map`.
* MongoDB distinguishes an `ObjectId` value from the string holding the same
  hex digits; equality across the two kinds is false.  `MongoVal` models this.
* HTTP error responses become the `ApiError` sum type.
-/

namespace Agenda

/-- A MongoDB field value that is either an ObjectId or a plain string.
In MongoDB an ObjectId never compares equal to the string of its hex digits;
this distinction is load-bearing for the cascade-deactivation queries. -/
inductive MongoVal where
  | oid (s : String)
  | str (s : String)
deriving DecidableEq, Repr

/-- Appointment status enum from `app/models/appointment.py`. -/
inductive AppointmentStatus where
  | created
  | confirmed
  | completed
  | cancelled
deriving DecidableEq, Repr

/-- Error taxonomy of the HTTP layer (status code plus detail message). -/
inductive ApiError where
  | notFound (msg : String)
  | conflict (msg : String)
  | forbidden (msg : String)
  | unauthorized (msg : String)
deriving DecidableEq, Repr

/-- A document of the `appointments` collection (fields used by the
scheduling logic; contact snapshot fields omitted as inert payload). -/
structure AppointmentDoc where
  oid : String
  technician_id : String
  company_id : String
  dateTime : Int
  status : AppointmentStatus
deriving DecidableEq, Repr

/-- A document of the `absences` collection. -/
structure AbsenceDoc where
  oid : String
  technician_id : String
  company_id : String
  start_date : Int
  end_date : Int
deriving DecidableEq, Repr

/-- A document of the `prospects` collection (fields used by scoping). -/
structure ProspectDoc where
  oid : String
  company_id : String
  call_center_id : Option String
  processing_status : String
  email : String
deriving DecidableEq, Repr

/-- A document of the `users` collection.  `company_id` is an optional
`MongoVal` because the application writes it as a string while some queries
compare it against an ObjectId. -/
structure UserDoc where
  oid : String
  email : String
  role : String
  is_active : Bool
  company_id : Option MongoVal
deriving DecidableEq, Repr

/-- First query of `check_appointment_conflict`
(`app/routes/appointments.py`): another appointment of the same technician
and company whose `dateTime` lies inside the window
`[appointment_date - 15, appointment_date + 45]` (minutes), excluding
`exclude_appointment_id`.  The query filters on `technician_id`,
`company_id` and `dateTime` only — never on `status`. -/
def appointment_conflict_hit (appointments : List AppointmentDoc)
    (technician_id : String) (appointment_date : Int) (company_id : String)
    (exclude_appointment_id : Option String) : Bool :=
  appointments.any fun a =>
    a.technician_id == technician_id && a.company_id == company_id &&
    decide (appointment_date - 15 ≤ a.dateTime) &&
    decide (a.dateTime ≤ appointment_date + 45) &&
    (match exclude_appointment_id with
     | some e => a.oid != e
     | none => true)

/-- The second query of `check_appointment_conflict`: an absence of the
technician whose `[start_date, end_date]` intersects the window — with no
`company_id` clause, as in the source. -/
def absence_conflict_hit (absences : List AbsenceDoc)
    (technician_id : String) (appointment_date : Int) : Bool :=
  absences.any fun ab =>
    ab.technician_id == technician_id &&
    decide (ab.start_date ≤ appointment_date + 45) &&
    decide (appointment_date - 15 ≤ ab.end_date)

/-- Conflict when either query finds a document. -/
def check_appointment_conflict (appointments : List AppointmentDoc)
    (absences : List AbsenceDoc) (technician_id : String)
    (appointment_date : Int) (company_id : String)
    (exclude_appointment_id : Option String) : Bool :=
  appointment_conflict_hit appointments technician_id appointment_date
    company_id exclude_appointment_id ||
  absence_conflict_hit absences technician_id appointment_date

/-- Database state touched by the appointment routes. -/
structure SchedDb where
  appointments : List AppointmentDoc
  absences : List AbsenceDoc
  prospects : List ProspectDoc
  users : List UserDoc
deriving DecidableEq, Repr

/-- Embedding of the `POST /appointments` handler `create_appointment`:
the referenced prospect and technician must exist inside the caller's
company, then the conflict check runs; on conflict the request fails with
HTTP 409, otherwise the appointment is inserted with status `created`. -/
def create_appointment (db : SchedDb) (caller_company : String)
    (prospect_id technician_id : String) (dateTime : Int)
    (new_id : String) : Except ApiError SchedDb :=
  if ¬ db.prospects.any fun p =>
      p.oid == prospect_id && p.company_id == caller_company then
    .error (.notFound "Prospect non trouve")
  else if ¬ db.users.any fun u =>
      u.oid == technician_id &&
      u.company_id == some (MongoVal.str caller_company) then
    .error (.notFound "Technicien non trouve")
  else if check_appointment_conflict db.appointments db.absences
      technician_id dateTime caller_company none then
    .error (.conflict
      "Conflit d'horaire: le technicien a deja un rendez-vous a cette date et heure")
  else
    .ok { db with appointments := db.appointments ++
      [{ oid := new_id, technician_id := technician_id,
         company_id := caller_company, dateTime := dateTime,
         status := .created }] }

/-- `true` when an `Except` computation succeeded. -/
def isOk {ε α : Type} : Except ε α → Bool
  | .ok _ => true
  | .error _ => false

/-- Concrete scheduling database with one existing appointment of
technician `t1` of company `c1` at instant `d`, the prospect `p1` and the
technician user `t1`, and no absences. -/
def oneApptDb (d : Int) : SchedDb :=
  { appointments := [{ oid := "a1", technician_id := "t1",
                       company_id := "c1", dateTime := d,
                       status := .created }],
    absences := [],
    prospects := [{ oid := "p1", company_id := "c1", call_center_id := none,
                    processing_status := "created", email := "p@x" }],
    users := [{ oid := "t1", email := "t@x", role := "technician",
                is_active := true, company_id := some (.str "c1") }] }

/-- Error taxonomy of `UserService` (each constructor stands for one of the
distinct `ValueError` messages of the source, plus the `KeyError` a role
string outside the permission dictionaries raises). -/
inductive UserServiceError where
  | creatorNotFound
  | keyError
  | creationNotAllowed
  | emailTaken
  | userNotFound
  | cannotModify
deriving DecidableEq, Repr

/-- Allowed-creates table of `UserService._verify_creation_permissions`
(`app/services/user_service.py`), keyed by the creator role string as stored
in MongoDB (`UserRole` is a str enum, so dictionary lookup by the stored
string hits the enum key; a role string outside the table raises KeyError,
modelled as `none`).  The roles are `super_admin`, `admin`, `agent`, `work`:
the enum has no call-center member. -/
def allowed_creations (creator_role : String) : Option (List String) :=
  if creator_role == "super_admin" then some ["admin"]
  else if creator_role == "admin" then some ["agent", "work"]
  else if creator_role == "agent" then some ["work"]
  else if creator_role == "work" then some []
  else none

/-- Embedding of `UserService._verify_creation_permissions`. -/
def verify_creation_permissions (creator_role new_user_role : String) :
    Except UserServiceError Unit :=
  match allowed_creations creator_role with
  | none => .error .keyError
  | some allowed =>
    if allowed.contains new_user_role then .ok ()
    else .error .creationNotAllowed

/-- Embedding of `UserService.create_user`: resolve the creator, check the
allowed-creates table, check email availability, then insert. -/
def create_user (users : List UserDoc) (creator_id : String)
    (new_role new_email new_id : String) (company : Option MongoVal) :
    Except UserServiceError (List UserDoc) :=
  match users.find? (fun u => u.oid == creator_id) with
  | none => .error .creatorNotFound
  | some creator =>
    match verify_creation_permissions creator.role new_role with
    | .error e => .error e
    | .ok _ =>
      if users.any (fun u => u.email == new_email) then .error .emailTaken
      else .ok (users ++ [{ oid := new_id, email := new_email,
                            role := new_role, is_active := true,
                            company_id := company }])

/-- Role rank dictionary of `UserService._can_modify_user`; a role string
outside the dictionary raises KeyError, modelled as `none`. -/
def role_hierarchy (role : String) : Option Nat :=
  if role == "super_admin" then some 4
  else if role == "admin" then some 3
  else if role == "agent" then some 2
  else if role == "work" then some 1
  else none

/-- Embedding of `UserService._can_modify_user`: strict rank comparison of
the two role strings, nothing else. -/
def can_modify_user (modifier_role target_role : String) : Option Bool :=
  match role_hierarchy modifier_role, role_hierarchy target_role with
  | some a, some b => some (decide (b < a))
  | _, _ => none

/-- Field updates accepted by `UserService.update_user` (subset of
`UserUpdate` relevant to the embedded document). -/
structure UserUpdateData where
  email : Option String
  is_active : Option Bool
deriving DecidableEq, Repr

/-- Apply an update document to a user (the `$set` of the source). -/
def apply_user_update (upd : UserUpdateData) (u : UserDoc) : UserDoc :=
  { u with email := upd.email.getD u.email,
           is_active := upd.is_active.getD u.is_active }

/-- Embedding of `UserService.update_user`: resolve updater and target by id
(with no company filter), gate on `_can_modify_user`, then `$set`. -/
def update_user (users : List UserDoc) (updater_id user_id : String)
    (upd : UserUpdateData) : Except UserServiceError (List UserDoc) :=
  match users.find? (fun u => u.oid == updater_id),
        users.find? (fun u => u.oid == user_id) with
  | some updater, some target =>
    match can_modify_user updater.role target.role with
    | none => .error .keyError
    | some false => .error .cannotModify
    | some true =>
      .ok (users.map fun u =>
        if u.oid == user_id then apply_user_update upd u else u)
  | _, _ => .error .userNotFound

/-- Embedding of `UserService.delete_user`: same resolution and gate as
`update_user`, then removal of the target document. -/
def delete_user (users : List UserDoc) (deleter_id user_id : String) :
    Except UserServiceError (List UserDoc) :=
  match users.find? (fun u => u.oid == deleter_id),
        users.find? (fun u => u.oid == user_id) with
  | some deleter, some target =>
    match can_modify_user deleter.role target.role with
    | none => .error .keyError
    | some false => .error .cannotModify
    | some true => .ok (users.filter fun u => u.oid != user_id)
  | _, _ => .error .userNotFound

/-- A document of the `companies` collection (fields used by auth and the
lock toggle). -/
structure CompanyDoc where
  oid : String
  email : String
  is_active : Bool
  token_invalidation_timestamp : Option Int
deriving DecidableEq, Repr

/-- A document of the `revoked_tokens` collection. -/
structure RevokedTokenDoc where
  company_id : String
  revocation_timestamp : Int
deriving DecidableEq, Repr

/-- Database state touched by authentication and company deactivation. -/
structure AuthDb where
  users : List UserDoc
  companies : List CompanyDoc
  revoked_tokens : List RevokedTokenDoc
deriving DecidableEq, Repr

/-- Embedding of `AuthService.invalidate_company_tokens`: stamp
`token_invalidation_timestamp` on the company and insert a document into
`revoked_tokens`. -/
def invalidate_company_tokens (db : AuthDb) (company_id : String)
    (now : Int) : AuthDb :=
  { db with
    companies := db.companies.map fun c =>
      if c.oid == company_id
      then { c with token_invalidation_timestamp := some now } else c,
    revoked_tokens := db.revoked_tokens ++
      [{ company_id := company_id, revocation_timestamp := now }] }

/-- The `update_many` of the deactivation paths: set `is_active := false` on
every user whose `company_id` equals the ObjectId form of `cid` — exactly the
filter `{"company_id": ObjectId(company_id)}` the source sends to MongoDB. -/
def deactivate_users_by_company_oid (cid : String)
    (users : List UserDoc) : List UserDoc :=
  users.map fun u =>
    if u.company_id == some (MongoVal.oid cid)
    then { u with is_active := false } else u

/-- The company-side `update_one` of `toggle_company_lock`. -/
def set_company_active (cid : String) (b : Bool)
    (companies : List CompanyDoc) : List CompanyDoc :=
  companies.map fun c => if c.oid == cid then { c with is_active := b } else c

/-- Embedding of `toggle_company_lock` (`app/routes/companies.py`): flip the
company's `is_active`; when the new status is inactive, run `update_many` on
users whose `company_id` equals `ObjectId(company_id)` — the ObjectId form,
exactly as the source queries it — and then invalidate the company's tokens.
Returns the new database and the new status. -/
def toggle_company_lock (db : AuthDb) (company_id : String) (now : Int) :
    Except ApiError (AuthDb × Bool) :=
  match db.companies.find? (fun c => c.oid == company_id) with
  | none => .error (.notFound "Entreprise non trouvee")
  | some company =>
    let new_status := !company.is_active
    let db1 : AuthDb :=
      { db with companies := set_company_active company_id new_status db.companies }
    if new_status then .ok (db1, new_status)
    else
      let db2 : AuthDb :=
        { db1 with users := deactivate_users_by_company_oid company_id db1.users }
      .ok (invalidate_company_tokens db2 company_id now, new_status)

/-- The raw string carried by a Mongo value (`ObjectId(x)` in the source
accepts the hex string stored in a user document). -/
def mongoRawStr : MongoVal → String
  | .oid s => s
  | .str s => s

/-- The company-side `update_one` of `cascade_deactivate_admin`: deactivate
and stamp the revocation timestamp in a single `$set`. -/
def deactivate_and_stamp_company (cid : String) (now : Int)
    (companies : List CompanyDoc) : List CompanyDoc :=
  companies.map fun c =>
    if c.oid == cid
    then { c with is_active := false,
                  token_invalidation_timestamp := some now }
    else c

/-- Embedding of `AuthService.cascade_deactivate_admin`: resolve the admin,
deactivate and stamp their company, then `update_many` on users whose
`company_id` equals `ObjectId(company_id)` — again the ObjectId form. -/
def cascade_deactivate_admin (db : AuthDb) (admin_id : String) (now : Int) :
    Except ApiError AuthDb :=
  match db.users.find? (fun u => u.oid == admin_id) with
  | none => .error (.notFound "Admin non trouve")
  | some admin =>
    if admin.role != "admin" then .error (.notFound "Admin non trouve")
    else
      let cid := (admin.company_id.map mongoRawStr).getD ""
      let db1 : AuthDb :=
        { db with companies := deactivate_and_stamp_company cid now db.companies }
      .ok { db1 with users := deactivate_users_by_company_oid cid db1.users }

/-- Decoded JWT payload.  `sub` carries the email in the tokens issued by the
login route (which `get_current_user` consumes); `iat` and `exp` are the
issue and expiry instants. -/
structure TokenPayload where
  sub : String
  role : String
  company_id : Option String
  iat : Int
  exp : Int
deriving DecidableEq, Repr

/-- A bearer token: its decoded payload plus whether the signature checks
out (`jwt.decode` raises `JWTError` on a bad signature or an expired
token). -/
structure Token where
  payload : TokenPayload
  signature_ok : Bool
deriving DecidableEq, Repr

/-- Embedding of `AuthService.verify_token`: decode (signature and expiry),
look the company up by the payload's `company_id`, and reject when the token
was issued before the company's `token_invalidation_timestamp`.  The source
performs no active-flag check on the identity. -/
def verify_token (db : AuthDb) (now : Int) (tok : Token) :
    Except ApiError TokenPayload :=
  if !tok.signature_ok || decide (tok.payload.exp ≤ now) then
    .error (.unauthorized "Token invalide")
  else
    let company : Option CompanyDoc := match tok.payload.company_id with
      | some cid => db.companies.find? (fun c => c.oid == cid)
      | none => none
    match company with
    | some c =>
      match c.token_invalidation_timestamp with
      | some ts =>
        if tok.payload.iat < ts then .error (.unauthorized "Token revoque")
        else .ok tok.payload
      | none => .ok tok.payload
    | none => .ok tok.payload

/-- The identity `get_current_user` hands to route handlers: either a user
document or a company document acting as an implicit admin. -/
inductive AuthIdentity where
  | userIdent (u : UserDoc)
  | companyIdent (c : CompanyDoc)
deriving DecidableEq, Repr

/-- Embedding of `get_current_user` (`app/routes/auth.py`), the dependency
every protected route resolves its caller through: decode the JWT (signature
and expiry only), read the email from `sub`, and look the identity up in
`users` then `companies`.  The source consults neither the company's
`token_invalidation_timestamp` nor the identity's `is_active` flag. -/
def get_current_user (db : AuthDb) (now : Int) (tok : Token) :
    Except ApiError AuthIdentity :=
  if !tok.signature_ok || decide (tok.payload.exp ≤ now) then
    .error (.unauthorized "Could not validate credentials")
  else
    match db.users.find? (fun u => u.email == tok.payload.sub) with
    | some user => .ok (.userIdent user)
    | none =>
      match db.companies.find? (fun c => c.email == tok.payload.sub) with
      | some company => .ok (.companyIdent company)
      | none => .error (.unauthorized "Could not validate credentials")

/-- A document of the `share_links` collection
(`app/models/share_link.py`): note the model carries no `company_id`
field at all. -/
structure ShareLinkDoc where
  oid : String
  technician_id : String
  token : String
  expires_at : Int
  is_active : Bool
  access_count : Nat
  last_accessed_at : Option Int
  ip_whitelist : List String
  can_add_appointments : Bool
  created_by : String
deriving DecidableEq, Repr

/-- A document of the `technicians` collection (public subset). -/
structure TechnicianDoc where
  oid : String
  name : String
deriving DecidableEq, Repr

/-- Identity of an authenticated caller as the handlers read it off
`current_user` (id, email, role and tenant). -/
structure Identity where
  id : String
  email : String
  role : String
  company_id : String
deriving DecidableEq, Repr

/-- Embedding of `GET /` of `app/routes/share_links.py`
(`get_share_links`): filter by the optional technician id and, when
`active_only`, by `is_active` and unexpired `expires_at`.  The authenticated
caller is a parameter because the route resolves one, but the query it sends
contains no clause about the caller or any tenant. -/
def get_share_links (links : List ShareLinkDoc) (now : Int)
    (technician_id : Option String) (active_only : Bool)
    (current_user : Identity) : List ShareLinkDoc :=
  links.filter fun l =>
    (match technician_id with
     | some t => l.technician_id == t
     | none => true) &&
    (!active_only || (l.is_active && decide (now < l.expires_at)))

/-- The view returned to an anonymous consumer of a share link. -/
structure CalendarView where
  technician_id : String
  technician_name : String
  can_add_appointments : Bool
  appointments : List AppointmentDoc
deriving DecidableEq, Repr

/-- The single `$inc`/`$set` update the consume path applies to the found
link: bump `access_count` and stamp `last_accessed_at`. -/
def touch_share_link (link_oid : String) (now : Int)
    (links : List ShareLinkDoc) : List ShareLinkDoc :=
  links.map fun x =>
    if x.oid == link_oid
    then { x with access_count := x.access_count + 1,
                  last_accessed_at := some now }
    else x

/-- Embedding of `GET /access/token` (`get_shared_calendar`), the anonymous
consume path: one lookup by token requiring `is_active` and
`expires_at > now` — not found, revoked and expired all produce the same 404
detail — then the IP allow-list check, then the access-count update (which
hits the database before the technician is resolved), then the technician
and their appointments.  Returns the response together with the share-link
collection as left behind. -/
def get_shared_calendar (links : List ShareLinkDoc)
    (technicians : List TechnicianDoc) (appointments : List AppointmentDoc)
    (token client_ip : String) (now : Int) :
    Except ApiError CalendarView × List ShareLinkDoc :=
  match links.find? (fun l =>
      l.token == token && l.is_active && decide (now < l.expires_at)) with
  | none => (.error (.notFound "Lien de partage invalide, expire ou revoque"), links)
  | some l =>
    if !l.ip_whitelist.isEmpty && !(l.ip_whitelist.contains client_ip) then
      (.error (.forbidden "Acces non autorise depuis cette adresse IP"), links)
    else
      let links2 := touch_share_link l.oid now links
      match technicians.find? (fun t => t.oid == l.technician_id) with
      | none => (.error (.notFound "Technicien non trouve"), links2)
      | some t =>
        (.ok { technician_id := l.technician_id, technician_name := t.name,
               can_add_appointments := l.can_add_appointments,
               appointments := appointments.filter
                 (fun a => a.technician_id == l.technician_id) },
         links2)

/-- Embedding of `GET /prospects` (`app/routes/prospect.py`,
`get_prospects`): admins and super admins get the prospects of their
company; a call-center caller gets exactly the prospects whose
`call_center_id` is their own id.  The route's guard dependency
`verify_admin_or_call_center` is imported from `app.routes.auth` but not
defined under the sources; modelled from the spec: any other role is
rejected. -/
def get_prospects (prospects : List ProspectDoc) (current_user : Identity) :
    Except ApiError (List ProspectDoc) :=
  if current_user.role == "super_admin" || current_user.role == "admin" then
    .ok (prospects.filter fun p => p.company_id == current_user.company_id)
  else if current_user.role == "call_center" then
    .ok (prospects.filter fun p => p.call_center_id == some current_user.id)
  else
    .error (.forbidden "Acces non autorise")

/-- The five legal `processing_status` values. -/
def processing_status_values : List String :=
  ["created", "confirmed", "new_plan", "completed", "cancelled"]

/-- Embedding of `POST /prospect` of `app/routes/call_center_prospect.py`
(`create_prospect`): only a call-center caller may create; the requested
status is kept when legal and reset to `created` otherwise; `call_center_id`
is set to the caller's own id and `company_id` to the caller's tenant.
Returns the new collection and the inserted document. -/
def create_prospect_call_center (prospects : List ProspectDoc)
    (current_user : Identity) (email requested_status new_id : String) :
    Except ApiError (List ProspectDoc × ProspectDoc) :=
  if current_user.role != "call_center" then
    .error (.forbidden "Seuls les call centers peuvent creer des prospects")
  else
    let st := if processing_status_values.contains requested_status
              then requested_status else "created"
    let p : ProspectDoc :=
      { oid := new_id, company_id := current_user.company_id,
        call_center_id := some current_user.id,
        processing_status := st, email := email }
    .ok (prospects ++ [p], p)

/-- Technician `t1` is absent over `[100, 500]` of company `c1`. -/
def absenceDoc1 : AbsenceDoc :=
  { oid := "ab1", technician_id := "t1", company_id := "c1",
    start_date := 100, end_date := 500 }

/-- Scheduling database with no appointment, the absence `absenceDoc1`, and
the prospect and technician of `oneApptDb`. -/
def absenceDb : SchedDb :=
  { appointments := [], absences := [absenceDoc1],
    prospects := (oneApptDb 0).prospects, users := (oneApptDb 0).users }

/-- Helper: the conflict verdict on a database holding exactly one
appointment of the technician and no absence, as a window condition on the
requested instant. -/
theorem check_conflict_singleton (d t : Int) :
    check_appointment_conflict (oneApptDb d).appointments
      (oneApptDb d).absences "t1" t "c1" none = true ↔
    (t - 15 ≤ d ∧ d ≤ t + 45) := by
  simp [check_appointment_conflict, appointment_conflict_hit,
    absence_conflict_hit, oneApptDb]

/-- C1 (amended): against a lone existing appointment of the technician at
instant `d`, a booking request at instant `t` is reported conflicting
exactly when the existing `dateTime` lies inside the window built around the
REQUESTED time, `[t - 15, t + 45]`; outside that window the booking goes
through. -/
theorem c1_conflict_window (d t : Int) :
    (check_appointment_conflict (oneApptDb d).appointments
       (oneApptDb d).absences "t1" t "c1" none = true ↔
     (t - 15 ≤ d ∧ d ≤ t + 45)) ∧
    (¬ (t - 15 ≤ d ∧ d ≤ t + 45) →
     isOk (create_appointment (oneApptDb d) "c1" "p1" "t1" t "a2") = true) := by
  refine ⟨check_conflict_singleton d t, fun h => ?_⟩
  have hc : check_appointment_conflict (oneApptDb d).appointments
      (oneApptDb d).absences "t1" t "c1" none = false := by
    rcases hb : check_appointment_conflict (oneApptDb d).appointments
        (oneApptDb d).absences "t1" t "c1" none with _ | _
    · rfl
    · exact absurd ((check_conflict_singleton d t).mp hb) h
  simp [create_appointment, oneApptDb, isOk]
  simp [oneApptDb] at hc
  simp [hc]

/-- C1 witness: with the existing appointment at minute 600 (10:00Z) a
request at minute 660 (11:00Z) is accepted. -/
theorem c1_conflict_window_witness :
    isOk (create_appointment (oneApptDb 600) "c1" "p1" "t1" 660 "a2") =
      true :=
  (c1_conflict_window 600 660).2 (by decide)

/-- C1 counterexample: existing appointment of technician `t1` at minute 600
(10:00Z); a second booking at minute 630 (10:30Z) — inside the claimed
"45 minutes after the existing appointment" window — raises no conflict and
is accepted, contradicting the claim that it is rejected. -/
theorem c1_booking_after_existing_allowed :
    check_appointment_conflict (oneApptDb 600).appointments
      (oneApptDb 600).absences "t1" 630 "c1" none = false ∧
    isOk (create_appointment (oneApptDb 600) "c1" "p1" "t1" 630 "a2") =
      true := by decide

/-- Helper: an absence of the technician meeting the intersection condition
makes the absence query hit. -/
theorem absence_hit_of_mem {absences : List AbsenceDoc} {tech : String}
    {t : Int} {ab : AbsenceDoc} (hmem : ab ∈ absences)
    (htech : ab.technician_id = tech) (hs : ab.start_date ≤ t + 45)
    (he : t - 15 ≤ ab.end_date) :
    absence_conflict_hit absences tech t = true := by
  refine List.any_eq_true.mpr ⟨ab, hmem, ?_⟩
  rw [htech]
  simp [hs, he]

/-- C2: whenever an absence of the proposed technician satisfies the
intersection condition `start_date ≤ window.end AND end_date ≥ window.start`
against the window `[t - 15, t + 45]`, the conflict check reports a
conflict; consequently a creation request at an instant lying inside an
absence interval of the technician is never accepted. -/
theorem c2_absence_conflict :
    (∀ (appointments : List AppointmentDoc) (absences : List AbsenceDoc)
       (tech : String) (t : Int) (cid : String) (excl : Option String)
       (ab : AbsenceDoc), ab ∈ absences → ab.technician_id = tech →
       ab.start_date ≤ t + 45 → t - 15 ≤ ab.end_date →
       check_appointment_conflict appointments absences tech t cid excl =
         true) ∧
    (∀ (db : SchedDb) (cid pid tech : String) (t : Int) (nid : String)
       (ab : AbsenceDoc), ab ∈ db.absences → ab.technician_id = tech →
       ab.start_date ≤ t → t ≤ ab.end_date →
       isOk (create_appointment db cid pid tech t nid) = false) := by
  constructor
  · intro appointments absences tech t cid excl ab hmem htech hs he
    unfold check_appointment_conflict
    rw [absence_hit_of_mem hmem htech hs he]
    simp
  · intro db cid pid tech t nid ab hmem htech hs he
    have hc : check_appointment_conflict db.appointments db.absences tech t
        cid none = true := by
      unfold check_appointment_conflict
      rw [absence_hit_of_mem hmem htech (by omega) (by omega)]
      simp
    unfold create_appointment
    repeat' split
    all_goals (first | rfl | exact absurd hc (by assumption))

/-- C2 witness: technician `t1` is absent over `[100, 500]`; a request at
instant 300 is reported conflicting and the creation at 300 is rejected. -/
theorem c2_absence_conflict_witness :
    check_appointment_conflict [] [absenceDoc1] "t1" 300 "c1" none = true ∧
    isOk (create_appointment absenceDb "c1" "p1" "t1" 300 "a2") = false := by
  constructor
  · exact c2_absence_conflict.1 [] [absenceDoc1] "t1" 300 "c1" none
      absenceDoc1 (by simp) rfl (by decide) (by decide)
  · exact c2_absence_conflict.2 absenceDb "c1" "p1" "t1" 300 "a2"
      absenceDoc1 (by simp [absenceDb]) rfl (by decide) (by decide)

/-- Helper: an in-window appointment of the technician and company makes the
appointment query hit, whatever its status. -/
theorem appointment_hit_of_mem {appointments : List AppointmentDoc}
    {tech : String} {t : Int} {cid : String} {a : AppointmentDoc}
    (hmem : a ∈ appointments) (htech : a.technician_id = tech)
    (hcid : a.company_id = cid) (hlo : t - 15 ≤ a.dateTime)
    (hhi : a.dateTime ≤ t + 45) :
    appointment_conflict_hit appointments tech t cid none = true := by
  refine List.any_eq_true.mpr ⟨a, hmem, ?_⟩
  rw [htech, hcid]
  simp [hlo, hhi]

/-- C10: the conflict query never filters on status — an existing
appointment of the same technician and company with `dateTime` inside the
window makes the conflict check report a conflict whatever its status, and
rewriting every status in the collection leaves the verdict of the check
unchanged. -/
theorem c10_status_ignored :
    (∀ (appointments : List AppointmentDoc) (absences : List AbsenceDoc)
       (tech : String) (t : Int) (cid : String) (a : AppointmentDoc),
       a ∈ appointments → a.technician_id = tech → a.company_id = cid →
       t - 15 ≤ a.dateTime → a.dateTime ≤ t + 45 →
       check_appointment_conflict appointments absences tech t cid none =
         true) ∧
    (∀ (appointments : List AppointmentDoc) (absences : List AbsenceDoc)
       (tech : String) (t : Int) (cid : String) (excl : Option String)
       (s : AppointmentStatus),
       check_appointment_conflict
         (appointments.map fun a => { a with status := s })
         absences tech t cid excl =
       check_appointment_conflict appointments absences tech t cid excl) := by
  constructor
  · intro appointments absences tech t cid a hmem htech hcid hlo hhi
    unfold check_appointment_conflict
    rw [appointment_hit_of_mem hmem htech hcid hlo hhi]
    simp
  · intro appointments absences tech t cid excl s
    unfold check_appointment_conflict appointment_conflict_hit
    rw [List.any_map]
    rfl

/-- C10 witness: a cancelled appointment of technician `t1` at minute 600
still makes a request at minute 590 conflict. -/
theorem c10_status_ignored_witness :
    check_appointment_conflict
      [{ oid := "a1", technician_id := "t1", company_id := "c1",
         dateTime := 600, status := .cancelled }] [] "t1" 590 "c1" none =
      true :=
  c10_status_ignored.1
    [{ oid := "a1", technician_id := "t1", company_id := "c1",
       dateTime := 600, status := .cancelled }] [] "t1" 590 "c1"
    { oid := "a1", technician_id := "t1", company_id := "c1",
      dateTime := 600, status := .cancelled }
    (by simp) rfl rfl (by decide) (by decide)

/-- The creator/created pairs actually admitted by the service. -/
def allowedCreatePairs : List (String × String) :=
  [("super_admin", "admin"), ("admin", "agent"), ("admin", "work"),
   ("agent", "work")]

/-- Helper: when no stored email equals the candidate, the duplicate-email
query finds nothing. -/
theorem any_email_eq_false {users : List UserDoc} {email2 : String}
    (h : users.all (fun u => u.email != email2) = true) :
    users.any (fun u => u.email == email2) = false := by
  simp only [List.all_eq_true, bne_iff_ne, ne_eq] at h
  simp only [List.any_eq_false, beq_iff_eq]
  exact h

/-- Helper: the permission gate accepts exactly the pairs of
`allowedCreatePairs`. -/
theorem verify_creation_ok_iff (c r : String) :
    verify_creation_permissions c r = .ok () ↔
    (c, r) ∈ allowedCreatePairs := by
  unfold verify_creation_permissions allowed_creations allowedCreatePairs
  by_cases h1 : c = "super_admin"
  · subst h1
    by_cases hr : r = "admin" <;> simp [hr]
  · by_cases h2 : c = "admin"
    · subst h2
      by_cases hr1 : r = "agent"
      · simp [hr1]
      · by_cases hr2 : r = "work" <;> simp [hr1, hr2]
    · by_cases h3 : c = "agent"
      · subst h3
        by_cases hr : r = "work" <;> simp [hr]
      · by_cases h4 : c = "work" <;> simp [h1, h2, h3, h4]

/-- C5 (amended): with an existing creator and a fresh email, user creation
succeeds exactly for the pairs super_admin→admin, admin→agent,
admin→work(technician), agent→work(technician); every other pair — in
particular any creation of a `call_center` user, a role outside the
`UserRole` enum — is refused. -/
theorem c5_allowed_creates (users : List UserDoc) (creator : UserDoc)
    (cid role2 email2 nid : String) (comp : Option MongoVal)
    (hfind : users.find? (fun u => u.oid == cid) = some creator)
    (hfresh : users.all (fun u => u.email != email2) = true) :
    isOk (create_user users cid role2 email2 nid comp) = true ↔
    (creator.role, role2) ∈ allowedCreatePairs := by
  rw [← verify_creation_ok_iff]
  unfold create_user
  rw [hfind]
  cases hv : verify_creation_permissions creator.role role2 with
  | error e => simp [isOk, hv]
  | ok u => simp [isOk, any_email_eq_false hfresh, hv]

/-- A concrete admin of company `c1`. -/
def adminUser : UserDoc :=
  { oid := "u1", email := "a@x", role := "admin", is_active := true,
    company_id := some (.str "c1") }

/-- C5 witness: the admin may create a `work` (technician) user. -/
theorem c5_allowed_creates_witness :
    isOk (create_user [adminUser] "u1" "work" "n@x" "u2"
      (some (.str "c1"))) = true :=
  (c5_allowed_creates [adminUser] adminUser "u1" "work" "n@x" "u2"
    (some (.str "c1")) (by rfl) (by decide)).mpr (by decide)

/-- C5 counterexample: an admin requesting creation of a `call_center` user
is refused — the permission gate rejects and `create_user` fails —
contradicting the claim that admin may create call_center. -/
theorem c5_admin_call_center_refused :
    verify_creation_permissions "admin" "call_center" =
      .error .creationNotAllowed ∧
    create_user [adminUser] "u1" "call_center" "n@x" "u2"
      (some (.str "c1")) = .error .creationNotAllowed := ⟨rfl, rfl⟩

/-- C6 (amended): given that updater/deleter and target both resolve and
both roles carry a rank, the update and the delete succeed exactly when the
actor's rank strictly exceeds the target's in
super_admin(4) > admin(3) > agent(2) > work(1); the tenants of the two users
play no part in the decision. -/
theorem c6_modify_rank_only (users : List UserDoc) (m t : UserDoc)
    (mid tid : String) (upd : UserUpdateData) (a b : Nat)
    (hm : users.find? (fun u => u.oid == mid) = some m)
    (ht : users.find? (fun u => u.oid == tid) = some t)
    (hra : role_hierarchy m.role = some a)
    (hrb : role_hierarchy t.role = some b) :
    (isOk (update_user users mid tid upd) = true ↔ b < a) ∧
    (isOk (delete_user users mid tid) = true ↔ b < a) := by
  have hcan : can_modify_user m.role t.role = some (decide (b < a)) := by
    unfold can_modify_user
    rw [hra, hrb]
  constructor
  · unfold update_user
    rw [hm, ht]
    dsimp only
    rw [hcan]
    by_cases hba : b < a <;> simp [hba, isOk]
  · unfold delete_user
    rw [hm, ht]
    dsimp only
    rw [hcan]
    by_cases hba : b < a <;> simp [hba, isOk]

/-- A concrete admin of tenant `A`. -/
def adminTenantA : UserDoc :=
  { oid := "u1", email := "a@a", role := "admin", is_active := true,
    company_id := some (.str "A") }

/-- A concrete technician (`work`) of tenant `B`. -/
def workTenantB : UserDoc :=
  { oid := "u2", email := "w@b", role := "work", is_active := true,
    company_id := some (.str "B") }

/-- C6 witness: a super admin updating an admin succeeds (rank 4 over
rank 3). -/
theorem c6_modify_rank_only_witness :
    isOk (update_user
      [{ oid := "u0", email := "s@x", role := "super_admin",
         is_active := true, company_id := none }, adminTenantA]
      "u0" "u1" { email := none, is_active := some false }) = true :=
  ((c6_modify_rank_only
    [{ oid := "u0", email := "s@x", role := "super_admin",
       is_active := true, company_id := none }, adminTenantA]
    { oid := "u0", email := "s@x", role := "super_admin",
      is_active := true, company_id := none } adminTenantA
    "u0" "u1" { email := none, is_active := some false } 4 3
    (by rfl) (by rfl) (by rfl) (by rfl)).1).mpr (by decide)

/-- C6 counterexample: an admin of tenant `A` updates — and deletes — a
`work` user of tenant `B`: both succeed although the two belong to
different tenants, contradicting the same-tenant requirement of the
claim. -/
theorem c6_cross_tenant_modify_allowed :
    isOk (update_user [adminTenantA, workTenantB] "u1" "u2"
      { email := none, is_active := some false }) = true ∧
    isOk (delete_user [adminTenantA, workTenantB] "u1" "u2") = true ∧
    adminTenantA.company_id ≠ workTenantB.company_id := by decide

/-- Tenant `B`, deactivated, with tokens revoked at instant 100. -/
def companyB : CompanyDoc :=
  { oid := "B", email := "b@corp", is_active := false,
    token_invalidation_timestamp := some 100 }

/-- An agent of tenant `B`, already set inactive. -/
def agentB : UserDoc :=
  { oid := "u1", email := "x@b", role := "agent", is_active := false,
    company_id := some (.str "B") }

/-- Auth state of tenant `B` after its deactivation. -/
def authDbB : AuthDb :=
  { users := [agentB], companies := [companyB],
    revoked_tokens := [{ company_id := "B", revocation_timestamp := 100 }] }

/-- A well-signed token of `agentB` issued at instant 50 — before the
revocation instant 100 — and expiring at instant 1000. -/
def revokedTok : Token :=
  { payload := { sub := "x@b", role := "agent", company_id := some "B",
                 iat := 50, exp := 1000 },
    signature_ok := true }

/-- C4: at instant 200 the unexpired token issued at 50, before tenant `B`
revoked its tokens at 100, is rejected by `AuthService.verify_token` — but
the dependency the routes actually authenticate through,
`get_current_user`, resolves it to the (deactivated) agent and accepts the
request, consulting neither the revocation timestamp nor the active flag. -/
theorem c4_revoked_token_accepted_by_routes :
    verify_token authDbB 200 revokedTok =
      .error (.unauthorized "Token revoque") ∧
    get_current_user authDbB 200 revokedTok = .ok (.userIdent agentB) ∧
    agentB.is_active = false ∧
    revokedTok.payload.iat < 100 ∧ (200 : Int) < revokedTok.payload.exp :=
  ⟨rfl, rfl, rfl, by decide, by decide⟩

/-- Tenant `C`, active, with no revocation stamp yet. -/
def companyC : CompanyDoc :=
  { oid := "C", email := "c@corp", is_active := true,
    token_invalidation_timestamp := none }

/-- The admin of tenant `C`; `company_id` stored as the string form, as the
user-creation routes write it. -/
def adminC : UserDoc :=
  { oid := "a1", email := "adm@c", role := "admin", is_active := true,
    company_id := some (.str "C") }

/-- An active agent of tenant `C`, `company_id` stored as a string. -/
def agentC : UserDoc :=
  { oid := "u1", email := "x@c", role := "agent", is_active := true,
    company_id := some (.str "C") }

/-- Auth state of tenant `C` before deactivation. -/
def authDbC : AuthDb :=
  { users := [adminC, agentC], companies := [companyC],
    revoked_tokens := [] }

/-- Tenant `C` as left by either deactivation path: flag down and stamped. -/
def companyCLocked : CompanyDoc :=
  { oid := "C", email := "c@corp", is_active := false,
    token_invalidation_timestamp := some 500 }

/-- C7: deactivating tenant `C` at instant 500 — through the lock toggle or
through the admin cascade — flips the company flag, stamps the revocation
timestamp and (for the toggle) records the revocation, but leaves both
users of the tenant untouched and still active: the `update_many` filters
on the ObjectId form of `company_id` while the user documents store the
string form. -/
theorem c7_cascade_leaves_users_active :
    toggle_company_lock authDbC "C" 500 =
      .ok ({ users := [adminC, agentC], companies := [companyCLocked],
             revoked_tokens := [{ company_id := "C",
                                  revocation_timestamp := 500 }] }, false) ∧
    cascade_deactivate_admin authDbC "a1" 500 =
      .ok { users := [adminC, agentC], companies := [companyCLocked],
            revoked_tokens := [] } ∧
    agentC.is_active = true ∧ adminC.is_active = true :=
  ⟨rfl, rfl, rfl, rfl⟩

/-- An authenticated admin of tenant `A`. -/
def callerA : Identity :=
  { id := "ua", email := "a@a", role := "admin", company_id := "A" }

/-- A live share link created by an admin of tenant `B` for a technician of
tenant `B`. -/
def shareLinkB : ShareLinkDoc :=
  { oid := "s1", technician_id := "tb", token := "tokB",
    expires_at := 1000, is_active := true, access_count := 0,
    last_accessed_at := none, ip_whitelist := [],
    can_add_appointments := false, created_by := "adminB" }

/-- An absence belonging to tenant `B`. -/
def absenceB : AbsenceDoc :=
  { oid := "ab", technician_id := "t1", company_id := "B",
    start_date := 900, end_date := 1100 }

/-- C3: two tenant-isolation breaches at concrete states.  The share-link
listing returns tenant `B`'s link to the authenticated admin of tenant `A`
— the query carries no tenant clause and the model has no `company_id`
field.  And the conflict check run for a caller of tenant `A` reports a
conflict caused solely by tenant `B`'s absence document (removing that
document flips the outcome): the absence query has no `company_id`
clause. -/
theorem c3_cross_tenant_leakage :
    get_share_links [shareLinkB] 0 none true callerA = [shareLinkB] ∧
    check_appointment_conflict [] [absenceB] "t1" 1000 "A" none = true ∧
    check_appointment_conflict [] [] "t1" 1000 "A" none = false :=
  ⟨rfl, rfl, rfl⟩

/-- C9: prospect visibility by actor kind.  An admin or super-admin caller
receives exactly the prospects of their tenant; a call-center caller
receives exactly the prospects whose `call_center_id` is their own id; and
a prospect created by a call-center caller carries that caller's id as
`call_center_id` and the caller's tenant as `company_id`. -/
theorem c9_prospect_scoping :
    (∀ (prospects : List ProspectDoc) (caller : Identity),
       caller.role = "admin" ∨ caller.role = "super_admin" →
       get_prospects prospects caller =
         .ok (prospects.filter fun p =>
           p.company_id == caller.company_id)) ∧
    (∀ (prospects : List ProspectDoc) (caller : Identity),
       caller.role = "call_center" →
       get_prospects prospects caller =
         .ok (prospects.filter fun p =>
           p.call_center_id == some caller.id)) ∧
    (∀ (prospects : List ProspectDoc) (caller : Identity)
       (email st nid : String) (res : List ProspectDoc × ProspectDoc),
       caller.role = "call_center" →
       create_prospect_call_center prospects caller email st nid = .ok res →
       res.2.call_center_id = some caller.id ∧
       res.2.company_id = caller.company_id) := by
  refine ⟨?_, ?_, ?_⟩
  · intro prospects caller h
    rcases h with h | h <;> simp [get_prospects, h]
  · intro prospects caller h
    simp [get_prospects, h]
  · intro prospects caller email st nid res h hok
    simp [create_prospect_call_center, h] at hok
    rw [← hok]
    exact ⟨rfl, rfl⟩

/-- The admin identity of tenant `A`. -/
def adminIdentA : Identity :=
  { id := "adm", email := "adm@a", role := "admin", company_id := "A" }

/-- Call-center identity `X` of tenant `A`. -/
def ccX : Identity :=
  { id := "x1", email := "x@cc", role := "call_center", company_id := "A" }

/-- Call-center identity `Y` of tenant `A`. -/
def ccY : Identity :=
  { id := "y1", email := "y@cc", role := "call_center", company_id := "A" }

/-- The prospect created by call-center `X` in tenant `A`. -/
def prospectX : ProspectDoc :=
  { oid := "p1", company_id := "A", call_center_id := some "x1",
    processing_status := "created", email := "lead@x" }

/-- C9 witness: the admin of tenant `A` sees the prospect created by
call-center `X`; call-center `Y` of the same tenant does not; and a
prospect created by `X` carries `X`'s id. -/
theorem c9_prospect_scoping_witness :
    get_prospects [prospectX] adminIdentA = .ok [prospectX] ∧
    get_prospects [prospectX] ccY = .ok [] ∧
    ∃ nid, (create_prospect_call_center [] ccX "lead@x" "created" nid).map
      (fun r => r.2.call_center_id) = .ok (some ccX.id) := by
  refine ⟨?_, ?_, "p1", ?_⟩
  · have h := c9_prospect_scoping.1 [prospectX] adminIdentA (Or.inl rfl)
    rw [h]
    rfl
  · have h := c9_prospect_scoping.2.1 [prospectX] ccY rfl
    rw [h]
    rfl
  · have h := c9_prospect_scoping.2.2 [] ccX "lead@x" "created" "p1"
      ([prospectX], prospectX) rfl rfl
    show Except.ok prospectX.call_center_id = Except.ok (some ccX.id)
    rw [h.1]

/-- C8 (amended): consuming a share link against a store holding that one
link.  The consume is rejected with the single invalid-or-expired error
exactly when the token does not match, the link is revoked, or `now` is at
or past `expires_at` — one error for all three causes.  Whenever the
consume returns a calendar view, the stored link has `access_count`
incremented by exactly one and `last_accessed_at` stamped.  And when the
link is live but its non-empty IP allow-list misses the caller's address,
the request is refused with the distinct forbidden error. -/
theorem c8_consume_share_link (l : ShareLinkDoc)
    (technicians : List TechnicianDoc)
    (appointments : List AppointmentDoc) (tok ip : String) (now : Int) :
    ((get_shared_calendar [l] technicians appointments tok ip now).1 =
       .error (.notFound "Lien de partage invalide, expire ou revoque") ↔
     (l.token ≠ tok ∨ l.is_active = false ∨ l.expires_at ≤ now)) ∧
    (∀ v, (get_shared_calendar [l] technicians appointments tok ip now).1 =
       .ok v →
     (get_shared_calendar [l] technicians appointments tok ip now).2 =
       [{ l with access_count := l.access_count + 1,
                 last_accessed_at := some now }]) ∧
    (l.token = tok → l.is_active = true → now < l.expires_at →
     l.ip_whitelist ≠ [] → l.ip_whitelist.contains ip = false →
     (get_shared_calendar [l] technicians appointments tok ip now).1 =
       .error (.forbidden "Acces non autorise depuis cette adresse IP")) := by
  by_cases hmatch :
      (l.token == tok && l.is_active && decide (now < l.expires_at)) = true
  · have hfind : List.find? (fun l2 =>
        l2.token == tok && l2.is_active && decide (now < l2.expires_at)) [l] =
        some l := by
      simp only [List.find?, hmatch]
    simp only [Bool.and_eq_true, beq_iff_eq, decide_eq_true_eq] at hmatch
    obtain ⟨⟨htok, hact⟩, hexp⟩ := hmatch
    unfold get_shared_calendar
    rw [hfind]
    dsimp only
    refine ⟨?_, ?_, ?_⟩
    · constructor
      · intro habs
        exfalso
        by_cases hwl : (!l.ip_whitelist.isEmpty &&
            !l.ip_whitelist.contains ip) = true
        · rw [if_pos hwl] at habs
          simp at habs
        · rw [if_neg hwl] at habs
          rcases htech : technicians.find? (fun t =>
              t.oid == l.technician_id) with _ | t
          · rw [htech] at habs
            simp at habs
          · rw [htech] at habs
            simp at habs
      · intro habs
        rcases habs with h | h | h
        · exact absurd htok h
        · rw [hact] at h
          exact absurd h (by simp)
        · omega
    · intro v hv
      by_cases hwl : (!l.ip_whitelist.isEmpty &&
          !l.ip_whitelist.contains ip) = true
      · rw [if_pos hwl] at hv
        simp at hv
      · rw [if_neg hwl] at hv ⊢
        rcases htech : technicians.find? (fun t =>
            t.oid == l.technician_id) with _ | t
        · rw [htech] at hv
          simp at hv
        · rw [htech]
          simp [touch_share_link]
    · intro _ _ _ hne hmiss
      have hne2 : l.ip_whitelist.isEmpty = false := by
        cases hl : l.ip_whitelist with
        | nil => exact absurd hl hne
        | cons x xs => rfl
      have hwl : (!l.ip_whitelist.isEmpty &&
          !l.ip_whitelist.contains ip) = true := by
        simp [hne2]
        simpa using hmiss
      rw [if_pos hwl]
  · have hfalse : (l.token == tok && l.is_active &&
        decide (now < l.expires_at)) = false := by
      cases h : (l.token == tok && l.is_active &&
          decide (now < l.expires_at)) with
      | false => rfl
      | true => exact absurd h hmatch
    have hfind : List.find? (fun l2 =>
        l2.token == tok && l2.is_active && decide (now < l2.expires_at)) [l] =
        none := by
      simp only [List.find?, hfalse]
    simp only [Bool.and_eq_true, beq_iff_eq, decide_eq_true_eq, not_and]
      at hmatch
    unfold get_shared_calendar
    rw [hfind]
    dsimp only
    refine ⟨?_, ?_, ?_⟩
    · constructor
      · intro _
        by_cases htok : l.token = tok
        · by_cases hact : l.is_active = true
          · refine Or.inr (Or.inr ?_)
            have := hmatch ⟨htok, hact⟩
            omega
          · exact Or.inr (Or.inl (by simpa using hact))
        · exact Or.inl htok
      · intro _
        rfl
    · intro v hv
      simp at hv
    · intro htok hact hexp _ _
      exact absurd hexp (hmatch ⟨htok, hact⟩)

/-- A live share link for technician `t1` with token `tokL`, expiring at
instant 100. -/
def shareLinkL : ShareLinkDoc :=
  { oid := "s1", technician_id := "t1", token := "tokL",
    expires_at := 100, is_active := true, access_count := 3,
    last_accessed_at := none, ip_whitelist := [],
    can_add_appointments := false, created_by := "adm" }

/-- The technician `t1` referenced by `shareLinkL`. -/
def techT1 : TechnicianDoc := { oid := "t1", name := "Tech One" }

/-- C8 witness: consuming `shareLinkL` at instant 50 succeeds and leaves the
stored link with `access_count` 4 and `last_accessed_at` stamped to 50. -/
theorem c8_consume_share_link_witness :
    (get_shared_calendar [shareLinkL] [techT1] [] "tokL" "9.9.9.9" 50).2 =
      [{ shareLinkL with access_count := shareLinkL.access_count + 1,
                         last_accessed_at := some 50 }] :=
  (c8_consume_share_link shareLinkL [techT1] [] "tokL" "9.9.9.9" 50).2.1
    { technician_id := "t1", technician_name := "Tech One",
      can_add_appointments := false, appointments := [] } rfl

/-- C8 counterexample: at the instant `now = expires_at` exactly — a moment
that is not yet past `expires_at` — a found, active link is nevertheless
rejected with the invalid-or-expired error, contradicting the claim's
three-cause characterisation of rejection. -/
theorem c8_rejected_at_expiry_instant :
    (get_shared_calendar [shareLinkL] [techT1] [] "tokL" "9.9.9.9" 100).1 =
      .error (.notFound "Lien de partage invalide, expire ou revoque") ∧
    shareLinkL.token = "tokL" ∧ shareLinkL.is_active = true ∧
    ¬ (100 : Int) > shareLinkL.expires_at :=
  ⟨rfl, rfl, rfl, by decide⟩

end Agenda
